import Mathlib

/-!
Verification of the AFixL orchestration engine against its specification.

The definitions below are a shallow embedding of the Python sources:
- `src/afixl/orchestration/models.py` (data model),
- `src/afixl/orchestration/crash.py` (crash repository),
- `src/afixl/backend/replay/task.py`, `src/afixl/backend/repair/task.py`,
  `src/afixl/backend/evaluate/task.py`, `src/afixl/backend/fuzz/task.py`
  (the four pipeline stages),
- `src/afixl/docker/exec_handle.py` and `src/afixl/docker/instance.py`
  (command handle and sandbox lifecycle),
- `src/AfixL/fuzz/core.py` and `src/AfixL/engine.py` (the legacy pipeline
  iteration, needed for the timeout-classification comparison).

Python strings are modelled as `String`, byte strings as `List Nat`
(`bytes` values are only moved around, never inspected, except for the
sanitizer report which the code round-trips through utf-8 encode/decode
and which we therefore keep as the decoded `String`).  Stateful code is
modelled by explicit state passing; a raised Python exception is an
`Option`/outcome `none`-style constructor.
-/

namespace AFixL

/- ===================== String helpers ===================== -/

/-- Python `needle`-is-a-prefix-of-`hay` test on character lists, used to
embed `str.startswith` and the substring test. -/
def listIsPrefixChars : List Char → List Char → Bool
  | [], _ => true
  | _ :: _, [] => false
  | a :: as, b :: bs => a == b && listIsPrefixChars as bs

/-- Substring occurrence test on character lists: embeds Python `sub in s`. -/
def listHasInfixChars : List Char → List Char → Bool
  | [], needle => listIsPrefixChars needle []
  | h :: rest, needle => listIsPrefixChars needle (h :: rest) || listHasInfixChars rest needle

/-- Embeds Python `s.startswith(p)`. -/
def strStartsWith (s p : String) : Bool :=
  listIsPrefixChars p.toList s.toList

/-- Embeds Python `sub in s` (substring containment). -/
def strContainsSub (s sub : String) : Bool :=
  listHasInfixChars s.toList sub.toList

/-- Embeds Python `sep.join(parts)` for a non-empty separator. -/
def strJoinSep (sep : String) : List String → String
  | [] => ""
  | [x] => x
  | x :: y :: xs => x ++ sep ++ strJoinSep sep (y :: xs)

/-- Embeds Python `"".join(parts)`: plain concatenation. -/
def strConcat : List String → String
  | [] => ""
  | x :: xs => x ++ strConcat xs

/-- Splitter used by `Path(name).name`: split a character list on a
separator character. -/
def splitOnCharAux (sep : Char) : List Char → List Char → List (List Char)
  | [], acc => [acc.reverse]
  | c :: rest, acc =>
    if c == sep then acc.reverse :: splitOnCharAux sep rest []
    else splitOnCharAux sep rest (c :: acc)

/-- Embeds Python `pathlib.Path(s).name`: the last non-empty component of a
slash-separated path (tar member names never end in a slash for files). -/
def baseName (s : String) : String :=
  String.mk (((splitOnCharAux '/' s.toList []).filter (fun l => !l.isEmpty)).getLastD [])

/-- Core of Python `str.splitlines(keepends=True)`: cut a character list
into lines, each retaining its terminator (handles the line boundaries
occurring in source text: LF, CRLF and lone CR; Python additionally breaks
on rarer control characters which never occur in the texts at issue). -/
def splitLinesAux : List Char → List Char → List (List Char)
  | [], acc => if acc.isEmpty then [] else [acc.reverse]
  | '\n' :: rest, acc => (acc.reverse ++ ['\n']) :: splitLinesAux rest []
  | '\r' :: '\n' :: rest, acc => (acc.reverse ++ ['\r', '\n']) :: splitLinesAux rest []
  | '\r' :: rest, acc => (acc.reverse ++ ['\r']) :: splitLinesAux rest []
  | c :: rest, acc => splitLinesAux rest (c :: acc)

/-- Embeds Python `content.splitlines(keepends=True)`
(evaluate/task.py line 156). -/
def splitlinesKeepends (s : String) : List String :=
  (splitLinesAux s.toList []).map String.mk

/- ===================== Data model (src/afixl/orchestration/models.py) ===================== -/

/-- Embeds `CrashStage = Literal["fuzz", "replay", "repair", "evaluate"]`
(models.py line 19). -/
inductive CrashStage where
  | fuzz
  | replay
  | repair
  | evaluate
deriving DecidableEq, Repr

/-- Embeds `class RequestCode(BaseModel)` (models.py lines 40-42).  The
source declares exactly two fields, `reason` and `file`; there is no
`line` field even though repair/task.py dereferences `operation.line`. -/
structure RequestCode where
  reason : String
  file : String
deriving DecidableEq, Repr

/-- Embeds `class ModifiedLine(BaseModel)` (models.py lines 45-47).
`line_number` is a Python `int`, hence `Int`. -/
structure ModifiedLine where
  line_number : Int
  content : List String
deriving DecidableEq, Repr

/-- Embeds `class Patch(BaseModel)` (models.py lines 50-52). -/
structure Patch where
  file : String
  diff : List ModifiedLine
deriving DecidableEq, Repr

/-- Embeds `class ProposedPatch(BaseModel)` (models.py lines 55-58). -/
structure ProposedPatch where
  reason : String
  patches : List Patch
  confidence : Float := 0.0
deriving Repr

/-- Embeds `class MakeNote(BaseModel)` (models.py lines 61-62). -/
structure MakeNote where
  content : String
deriving DecidableEq, Repr

/-- The tagged union `RequestCode | ProposedPatch | MakeNote` used for
`Crash.history` (models.py line 75) and for the agent output type
(repair/task.py line 49). -/
inductive Action where
  | requestCode (rc : RequestCode)
  | proposedPatch (pp : ProposedPatch)
  | makeNote (mn : MakeNote)
deriving Repr

/-- Embeds `class Crash(BaseModel)` (models.py lines 65-77), with the
pydantic defaults.  Fields in source order; the source spells the
tri-state field `reproducable`.  `input` is a raw byte string.  `report`
is stored by replay/task.py line 86 as `output.encode("utf-8")` and read
back by repair/task.py line 111 as `report.decode("utf-8")`, so it is
kept here as the decoded text.  `requested_content` is annotated
`dict[str, bytes]` in models.py but is used by repair/task.py lines
184-198 as a per-file mapping from line number to line text; we model the
runtime shape as an association list. -/
structure Crash where
  id : String
  stage : CrashStage
  reproducable : Option Bool := none
  input : List Nat
  report : Option String := none
  requested_content : List (String × List (Int × String)) := []
  note : List String := []
  valid_patches : Option (List Patch) := none
  retry_count : Nat := 0
  history : List Action := []
deriving Repr

/- ===================== Replay stage (src/afixl/backend/replay/task.py) ===================== -/

/-- Embeds the sanitizer banner test of replay/task.py lines 81-82:
`"ERROR: AddressSanitizer" in output or "ERROR: UndefinedBehaviorSanitizer" in output`. -/
def sanitizerBanner (output : String) : Bool :=
  strContainsSub output "ERROR: AddressSanitizer" ||
  strContainsSub output "ERROR: UndefinedBehaviorSanitizer"

/-- Embeds the completion handler of replay/task.py lines 77-91: given the
replay command's exit code and decoded output, classify reproducibility,
record the report on the reproducible branch, and always advance the
stage to `replay`. -/
def replayClassify (c : Crash) (exit_code : Int) (output : String) : Crash :=
  let c1 :=
    if exit_code != 0 && sanitizerBanner output then
      { c with reproducable := some true, report := some output }
    else
      { c with reproducable := some false }
  { c1 with stage := CrashStage.replay }

/-- Embeds the replay command construction of replay/task.py line 72:
the format string `./{executable} /eval/{crash id}` — there is no
`timeout` wrapper in front of it. -/
def replayCommand (executable id : String) : String :=
  "./" ++ executable ++ " /eval/" ++ id

/- ===================== Evaluate stage (src/afixl/backend/evaluate/task.py) ===================== -/

/-- The sandbox file system visible to the Evaluate stage: an association
list from absolute file path to file text. -/
abbrev FS := List (String × String)

/-- Reading a file out of the sandbox (`Instance.read` + tar extraction,
evaluate/task.py lines 187-225); a missing path raises in Python. -/
def fsRead (fs : FS) (f : String) : Option String :=
  List.lookup f fs

/-- Writing a file into the sandbox (`Instance.write` of a single-entry
tar archive, evaluate/task.py lines 174-183): overwrite or create the
entry at the patch's file path. -/
def fsWrite : FS → String → String → FS
  | [], f, c => [(f, c)]
  | (g, d) :: rest, f, c =>
    if g == f then (f, c) :: rest else (g, d) :: fsWrite rest f c

/-- Embeds the inner loop of `EvaluateTask._patch_application`
(evaluate/task.py lines 158-172): for each `ModifiedLine`, if the 0-based
line index is in range and not already rewritten in this patch, replace
that line with the joined content plus a trailing newline; otherwise the
whole application fails (`return False`). -/
def applyDiffLoop : List ModifiedLine → List String → List Int → Option (List String)
  | [], lines, _ => some lines
  | ml :: rest, lines, processed =>
    let ln : Int := ml.line_number - 1
    if 0 ≤ ln ∧ ln < (lines.length : Int) ∧ ln ∉ processed then
      applyDiffLoop rest
        (lines.set ln.toNat (strJoinSep "\n" ml.content ++ "\n"))
        (ln :: processed)
    else
      none

/-- Outcome of `_patch_application` together with the sandbox state it
leaves behind: `ok` = returned True, `failed` = returned False after a
line check failed, `raised` = a file read raised (missing path /
malformed archive), which in Python propagates out of the method. -/
inductive PatchOutcome where
  | ok (fs : FS)
  | failed (fs : FS)
  | raised (fs : FS)
deriving DecidableEq, Repr

/-- Embeds `EvaluateTask._patch_application` (evaluate/task.py lines
143-185): for each patch in order, read the file, split it into lines
with terminators, run the diff loop with a per-patch `processed_lines`
set, and on success write the rebuilt file back before moving to the
next patch.  A diff failure aborts with the writes of the earlier
patches already performed. -/
def patchApplication : List Patch → FS → PatchOutcome
  | [], fs => PatchOutcome.ok fs
  | p :: rest, fs =>
    match fsRead fs p.file with
    | none => PatchOutcome.raised fs
    | some content =>
      match applyDiffLoop p.diff (splitlinesKeepends content) [] with
      | none => PatchOutcome.failed fs
      | some lines => patchApplication rest (fsWrite fs p.file (strConcat lines))

/-- Embeds `self._evaluating_crash.history[-1].patches` (evaluate/task.py
line 151): the last history entry is assumed to be a `ProposedPatch`;
an empty history or another variant raises in Python. -/
def lastPatches (c : Crash) : Option (List Patch) :=
  match c.history.getLast? with
  | some (Action.proposedPatch pp) => some pp.patches
  | _ => none

/-- Embeds the patch-application phase of `EvaluateTask.run`
(evaluate/task.py lines 56-66): apply the latest proposed patch set; on
failure revert the crash to stage `replay` and abort the tick.  `none`
models a raised exception (no last `ProposedPatch`, or a read failure),
which in Python propagates out of `run`. -/
def evaluatePatchPhase (c : Crash) (fs : FS) : Option (CrashStage × FS) :=
  match lastPatches c with
  | none => none
  | some ps =>
    match patchApplication ps fs with
    | PatchOutcome.ok fs1 => some (c.stage, fs1)
    | PatchOutcome.failed fs1 => some (CrashStage.replay, fs1)
    | PatchOutcome.raised _ => none

/-- Embeds the evaluation re-run command of evaluate/task.py line 111:
`timeout 10s ./{executable} /eval/{crash id}`. -/
def evaluateCommand (executable id : String) : String :=
  "timeout 10s ./" ++ executable ++ " /eval/" ++ id

/- ===================== Repair stage (src/afixl/backend/repair/task.py) ===================== -/

/-- Embeds `TIMES_THRESHOLD = 15` (repair/task.py line 21). -/
def TIMES_THRESHOLD : Nat := 15

/-- Embeds the crash-selection predicate of `RepairTask.run`
(repair/task.py lines 79-81):
`lambda c: c.stage == "replay" and c.retry_count < TIMES_THRESHOLD`.
Note: the lambda in the source tests only these two conditions; it does
not consult `c.reproducable`. -/
def repairSelects (c : Crash) : Bool :=
  c.stage == CrashStage.replay && decide (c.retry_count < TIMES_THRESHOLD)

/-- Embeds `self._fixing_crash.report.decode("utf-8")` (repair/task.py
line 111): the prompt composition reads the crash report; a `None`
report makes this attribute access raise in Python, modelled by the
`none` result. -/
def reportText (c : Crash) : Option String :=
  c.report

/-- Outcome of one agent round-trip as observed by `RepairTask.run`
(lines 117-128): either the future resolved with a structured action, or
`self._output_handle.result()` raised (network/parse failure). -/
inductive AgentOutcome where
  | success (op : Action)
  | failure
deriving Repr

/-- Embeds `RepairTask._do_operation` (repair/task.py lines 179-227)
applied to the crash record.  The action is appended to `history` first
(line 180).  For `ProposedPatch` the stage is set to `repair`; for
`MakeNote` the content is appended to `note`; in both cases the trailing
`retry_count += 1` (line 227) runs and the method completes (`true`).
For `RequestCode` the handler dereferences `operation.line` (lines 184,
193 and inside the except-handler log at line 207), but
`models.RequestCode` declares no `line` field, so the access raises
`AttributeError` on every path after the history append; the exception
propagates to the catch in `run` (line 121), so `requested_content`,
`note` and `retry_count` are left unchanged (`false` = raised). -/
def doOperation (c : Crash) : Action → Crash × Bool
  | Action.requestCode rc =>
    ({ c with history := c.history ++ [Action.requestCode rc] }, false)
  | Action.proposedPatch pp =>
    ({ c with history := c.history ++ [Action.proposedPatch pp],
              stage := CrashStage.repair,
              retry_count := c.retry_count + 1 }, true)
  | Action.makeNote mn =>
    ({ c with history := c.history ++ [Action.makeNote mn],
              note := c.note ++ [mn.content],
              retry_count := c.retry_count + 1 }, true)

/-- Embeds the completion branch of `RepairTask.run` (lines 117-128): if
the agent call failed, the exception is caught and logged and the crash
is untouched; otherwise `_do_operation` is applied (any exception it
raises is caught by the same handler, leaving the crash as
`_do_operation` left it, since the crash object is mutated in place). -/
def repairRoundTrip (c : Crash) : AgentOutcome → Crash
  | AgentOutcome.failure => c
  | AgentOutcome.success op => (doOperation c op).1

/- ===================== Command handle (src/afixl/docker/exec_handle.py) ===================== -/

/-- The cached state of an `ExecHandle` (exec_handle.py lines 27-29):
`_running` starts `True`, `_output` and `_exit_code` start `None`. -/
structure ExecHandle where
  running : Bool
  exit_code : Option Int
  output : Option String
deriving DecidableEq, Repr

/-- The handle state set up by `ExecHandle.__init__`. -/
def ExecHandle.start : ExecHandle :=
  { running := true, exit_code := none, output := none }

/-- One observation of the external process: the fields of the
`exec_inspect` reply consulted by `_fetch_results` (lines 40-45), plus
the fully drained output stream. -/
structure Inspection where
  Running : Bool
  ExitCode : Int
  stream : String
deriving DecidableEq, Repr

/-- Embeds `ExecHandle._fetch_results` (exec_handle.py lines 31-46): if
the cached state is already completed, return immediately without
touching the external process; otherwise refresh `_running` from the
inspection and, when the command is no longer running, cache the exit
code and the joined output stream.  The `running`, `exit_code` and
`output` properties all just call this and read the cached field. -/
def fetchResults (h : ExecHandle) (i : Inspection) : ExecHandle :=
  if !h.running then h
  else
    let h1 := { h with running := i.Running }
    if !i.Running then
      { h1 with exit_code := some i.ExitCode, output := some i.stream }
    else h1

/- ===================== Sandbox lifecycle (src/afixl/docker/instance.py) ===================== -/

/-- The part of the container runtime state that `Instance.close`
interacts with: the set of container ids currently known to the Docker
daemon. -/
structure DockerWorld where
  containers : List String
deriving DecidableEq, Repr

/-- The fields of an `Instance` consulted by `close` (instance.py lines
99-112): whether the client is available and connected (`ping`), and the
held container reference (`_container`, carrying its id).  `close` never
assigns `self._container = None`, so the reference survives a successful
close. -/
structure InstanceState where
  clientConnected : Bool
  container : Option String
deriving DecidableEq, Repr

/-- Result of a call to `Instance.close`: either it returns (with the
resulting runtime state and the unchanged instance fields), or the
`container.stop` / `container.remove` call raises because the referenced
container no longer exists in the daemon (docker's not-found error). -/
inductive CloseResult where
  | returned (world : DockerWorld) (inst : InstanceState)
  | raised (world : DockerWorld)
deriving DecidableEq, Repr

/-- Embeds `Instance.close` (instance.py lines 89-112): warn and return
when the client is unavailable or no container reference is held;
otherwise stop and force-remove the held container.  Stopping a
container id that the daemon no longer knows raises; the method neither
catches that nor clears `self._container` on success. -/
def instanceClose (inst : InstanceState) (w : DockerWorld) : CloseResult :=
  if !inst.clientConnected then CloseResult.returned w inst
  else
    match inst.container with
    | none => CloseResult.returned w inst
    | some cid =>
      if cid ∈ w.containers then
        CloseResult.returned { containers := w.containers.erase cid } inst
      else
        CloseResult.raised w

/- ===================== Fuzz stage (src/afixl/backend/fuzz/task.py) ===================== -/

/-- A tar archive entry of the crash results directory as iterated by
`FuzzTask.run` (lines 70-91): its member name, whether it is a regular
file (`member.isfile()`), and the bytes of `tar.extractfile(member)`
(`none` when `extractfile` returns `None`). -/
structure TarMember where
  name : String
  isfile : Bool
  data : Option (List Nat)
deriving DecidableEq, Repr

/-- Embeds the crash-extraction loop of `FuzzTask.run` (fuzz/task.py
lines 67-91): skip non-file members; compute the base file name; create
a crash input only when the file object exists, the base name starts
with `id:` and the name is not in the per-task seen set; record the name
as seen.  Returns the list of created crash inputs (in archive order)
and the final seen set (modelled as a list). -/
def fuzzExtract : List TarMember → List String → List (List Nat) × List String
  | [], seen => ([], seen)
  | m :: rest, seen =>
    if !m.isfile then fuzzExtract rest seen
    else
      match m.data with
      | none => fuzzExtract rest seen
      | some d =>
        let fname := baseName m.name
        if strStartsWith fname "id:" && !(seen.contains fname) then
          let r := fuzzExtract rest (seen ++ [fname])
          (d :: r.1, r.2)
        else
          fuzzExtract rest seen

/-- The static eligibility conditions of the extraction loop (as opposed
to the dynamic dedup against the seen set): regular file, extractable,
base name starting with `id:`. -/
def fuzzEligible (m : TarMember) : Bool :=
  m.isfile && m.data.isSome && strStartsWith (baseName m.name) "id:"

/-- Embeds `Crash(stage="fuzz", input=data)` (fuzz/task.py lines 86-89)
with the pydantic defaults of models.py and the freshly generated id. -/
def newFuzzCrash (id : String) (input : List Nat) : Crash :=
  { id := id, stage := CrashStage.fuzz, input := input }

/- ===================== Legacy pipeline (src/AfixL/fuzz/core.py, src/AfixL/engine.py) ===================== -/

/-- Embeds `CrashType` of the legacy iteration (AfixL/fuzz/crash.py
lines 5-14). -/
inductive CrashType where
  | NOT_TESTED
  | UNKNOWN
  | REPRODUCIBLE
  | NON_REPRODUCIBLE
  | TIMEOUT
deriving DecidableEq, Repr

/-- Embeds `REPLAY_TIMEOUT = 60` of the legacy replay
(AfixL/fuzz/core.py line 8). -/
def REPLAY_TIMEOUT : Int := 60

/-- Embeds the command wrapping of `Engine.run_command`
(AfixL/engine.py lines 63-65): a positive timeout prefixes the command
with `timeout {t}s `. -/
def runCommandWithTimeout (command : String) (timeout : Int) : String :=
  if timeout > 0 then "timeout " ++ toString timeout ++ "s " ++ command
  else command

/-- Embeds the exit-code classification of the legacy `replay`
(AfixL/fuzz/core.py lines 168-212): 0 means not reproducible, 124 means
timeout, otherwise a non-empty collected sanitizer log means
reproducible and an empty one means unknown. -/
def legacyReplayClassify (exit_code : Int) (replay_result : String) : CrashType :=
  if exit_code == 0 then CrashType.NON_REPRODUCIBLE
  else if exit_code == 124 then CrashType.TIMEOUT
  else if replay_result != "" then CrashType.REPRODUCIBLE
  else CrashType.UNKNOWN

/- ===================== Concrete example records ===================== -/

/-- A crash as the Replay stage leaves a non-reproducing input: stage
advanced to `replay`, `reproducable` set to false, no report recorded. -/
def c1Crash : Crash :=
  { id := "crash-c1", stage := CrashStage.replay, reproducable := some false,
    input := [0, 1], retry_count := 0 }

/-- A reproduced crash sitting at stage `replay` awaiting repair. -/
def c4Crash : Crash :=
  { id := "crash-c4", stage := CrashStage.replay, reproducable := some true,
    input := [0], report := some "ERROR: AddressSanitizer: heap-buffer-overflow",
    retry_count := 0 }

/-- A patch whose single line edit is in range for the file `a.c` below. -/
def c2GoodPatch : Patch :=
  { file := "a.c", diff := [{ line_number := 1, content := ["X"] }] }

/-- A patch whose line edit is out of range for the one-line file `b.c`. -/
def c2BadPatch : Patch :=
  { file := "b.c", diff := [{ line_number := 5, content := ["Y"] }] }

/-- A crash at stage `repair` whose latest proposed patch set contains a
valid patch followed by an out-of-range one. -/
def c2Crash : Crash :=
  { id := "crash-c2", stage := CrashStage.repair, reproducable := some true,
    input := [0],
    history := [Action.proposedPatch
      { reason := "fix", patches := [c2GoodPatch, c2BadPatch] }] }

/-- The sandbox source tree before the patch application of `c2Crash`. -/
def c2FS : FS := [("a.c", "a1\na2\n"), ("b.c", "b1\n")]

/-- The sandbox source tree after the failing application: the first
patch has already rewritten `a.c`. -/
def c2FSAfter : FS := [("a.c", "X\na2\n"), ("b.c", "b1\n")]

/-- A fresh crash used to exercise the replay classification. -/
def c6Crash : Crash :=
  { id := "crash-c6", stage := CrashStage.fuzz, input := [2] }

/-- An instance that has just been constructed: client connected, one
container held, and that container present in the daemon. -/
def c9Instance : InstanceState :=
  { clientConnected := true, container := some "cont-1" }

/- ===================== Helper lemmas ===================== -/

/-- A character list is a prefix of itself followed by anything. -/
theorem listIsPrefixChars_self_append (p rest : List Char) :
    listIsPrefixChars p (p ++ rest) = true := by
  induction p with
  | nil => rfl
  | cons a as ih => simp [listIsPrefixChars, ih]

/-- The keepends line splitter partitions its input: flattening the
resulting lines gives back the pending accumulator and the remaining
characters. -/
theorem splitLinesAux_flatten (cs acc : List Char) :
    (splitLinesAux cs acc).flatten = acc.reverse ++ cs := by
  induction cs, acc using splitLinesAux.induct <;>
    simp_all [splitLinesAux]

/-- Concatenating strings built from character lists concatenates the
lists. -/
theorem strConcat_map_mk (L : List (List Char)) :
    strConcat (L.map String.mk) = String.mk L.flatten := by
  induction L with
  | nil => rfl
  | cons x xs ih =>
    simp only [List.map_cons, strConcat, ih, List.flatten_cons]
    rfl

/-- Joining the keepends-split lines of a string restores the string:
the split is a partition, so `"".join(content.splitlines(keepends=True))`
is `content` itself. -/
theorem strConcat_splitlines (s : String) :
    strConcat (splitlinesKeepends s) = s := by
  unfold splitlinesKeepends
  rw [strConcat_map_mk, splitLinesAux_flatten]
  cases s
  rfl

/-- Once a line index is recorded in `processed_lines`, any later
`ModifiedLine` in the same patch targeting it makes the diff loop fail. -/
theorem applyDiffLoop_mem_processed (d2 : List ModifiedLine) (m : ModifiedLine)
    (d3 : List ModifiedLine) (lines : List String) (processed : List Int)
    (h : (m.line_number - 1) ∈ processed) :
    applyDiffLoop (d2 ++ m :: d3) lines processed = none := by
  induction d2 generalizing lines processed with
  | nil =>
    simp only [List.nil_append, applyDiffLoop]
    rw [if_neg]
    intro hc
    exact hc.2.2 h
  | cons ml d2 ih =>
    simp only [List.cons_append, applyDiffLoop]
    split
    · exact ih _ _ (List.mem_cons_of_mem _ h)
    · rfl

/-- A diff containing two `ModifiedLine`s with the same `line_number`
always makes the diff loop fail, whatever else the diff contains. -/
theorem applyDiffLoop_dup (d1 : List ModifiedLine) (m1 : ModifiedLine)
    (d2 : List ModifiedLine) (m2 : ModifiedLine) (d3 : List ModifiedLine)
    (lines : List String) (processed : List Int)
    (h : m1.line_number = m2.line_number) :
    applyDiffLoop (d1 ++ m1 :: d2 ++ m2 :: d3) lines processed = none := by
  induction d1 generalizing lines processed with
  | nil =>
    simp only [List.nil_append, applyDiffLoop]
    split
    · exact applyDiffLoop_mem_processed d2 m2 d3 _ _ (by rw [← h]; exact List.mem_cons_self _ _)
    · rfl
  | cons ml d1 ih =>
    simp only [List.cons_append, applyDiffLoop]
    split
    · exact ih _ _
    · rfl

/-- Patch application processes the patch list sequentially: the result
on an appended list is the result of continuing from the state the first
part succeeded with, and any failure or raise in the first part is
final. -/
theorem patchApplication_append (ps qs : List Patch) (fs : FS) :
    patchApplication (ps ++ qs) fs =
      match patchApplication ps fs with
      | PatchOutcome.ok fs1 => patchApplication qs fs1
      | PatchOutcome.failed fs1 => PatchOutcome.failed fs1
      | PatchOutcome.raised fs1 => PatchOutcome.raised fs1 := by
  induction ps generalizing fs with
  | nil => rfl
  | cons p ps ih =>
    cases h : fsRead fs p.file with
    | none => simp [patchApplication, h]
    | some content =>
      cases h2 : applyDiffLoop p.diff (splitlinesKeepends content) [] with
      | none => simp [patchApplication, h, h2]
      | some lines => simp [patchApplication, h, h2, ih]

/-- The character list of an appended string is the appended character
lists. -/
theorem strToList_append (a b : String) : (a ++ b).toList = a.toList ++ b.toList :=
  String.data_append a b

/-- The extraction loop of the Fuzz stage ignores every archive entry
that is not an extractable regular file whose base name starts with
`id:`: filtering those out first changes nothing. -/
theorem fuzzExtract_filter (ms : List TarMember) (seen : List String) :
    fuzzExtract ms seen = fuzzExtract (ms.filter fuzzEligible) seen := by
  induction ms generalizing seen with
  | nil => rfl
  | cons m rest ih =>
    by_cases hf : m.isfile
    · cases hd : m.data with
      | none =>
        have he : fuzzEligible m = false := by simp [fuzzEligible, hd]
        simp [fuzzExtract, List.filter_cons, hf, hd, he, ih]
      | some d =>
        by_cases hs : strStartsWith (baseName m.name) "id:"
        · have he : fuzzEligible m = true := by simp [fuzzEligible, hf, hd, hs]
          by_cases hdyn : (seen.contains (baseName m.name)) = true
          · simp [fuzzExtract, List.filter_cons, hf, hd, hs, he, hdyn, ih]
          · simp [fuzzExtract, List.filter_cons, hf, hd, hs, he, hdyn, ih]
        · have he : fuzzEligible m = false := by
            simp [fuzzEligible, hf, hd]
            simpa using hs
          simp [fuzzExtract, List.filter_cons, hf, hd, hs, he, ih]
    · have he : fuzzEligible m = false := by simp [fuzzEligible, hf]
      simp [fuzzExtract, List.filter_cons, hf, he, ih]

/-- Every crash the extraction loop creates records exactly one new name
in the seen set. -/
theorem fuzzExtract_length (ms : List TarMember) (seen : List String) :
    (fuzzExtract ms seen).2.length = seen.length + (fuzzExtract ms seen).1.length := by
  induction ms generalizing seen with
  | nil => simp [fuzzExtract]
  | cons m rest ih =>
    by_cases hf : m.isfile
    · cases hd : m.data with
      | none => simp [fuzzExtract, hf, hd, ih]
      | some d =>
        by_cases hs : strStartsWith (baseName m.name) "id:" = true
        · by_cases hmem : (baseName m.name) ∈ seen
          · simp [fuzzExtract, hf, hd, hs, hmem, ih]
          · simp [fuzzExtract, hf, hd, hs, hmem, ih]
            omega
        · simp [fuzzExtract, hf, hd, hs, ih]
    · simp [fuzzExtract, hf, ih]

/-- The seen set stays free of duplicates: an artifact name is recorded
at most once, so each distinct artifact filename yields at most one
crash per run. -/
theorem fuzzExtract_nodup (ms : List TarMember) (seen : List String) (h : seen.Nodup) :
    (fuzzExtract ms seen).2.Nodup := by
  induction ms generalizing seen with
  | nil => simpa [fuzzExtract] using h
  | cons m rest ih =>
    by_cases hf : m.isfile
    · cases hd : m.data with
      | none =>
        simp only [fuzzExtract, hf, hd]
        exact ih _ h
      | some d =>
        by_cases hs : strStartsWith (baseName m.name) "id:" = true
        · by_cases hmem : (baseName m.name) ∈ seen
          · simp [fuzzExtract, hf, hd, hs, hmem]
            exact ih _ h
          · have h3 : (seen ++ [baseName m.name]).Nodup := by
              simp [List.nodup_append, h, hmem]
            simp [fuzzExtract, hf, hd, hs, hmem]
            exact ih _ h3
        · simp [fuzzExtract, hf, hd, hs]
          exact ih _ h
    · simp [fuzzExtract, hf]
      exact ih _ h

/- ===================== Claim theorems ===================== -/

/-- Claim C1 (refuted; the code contradicts the spec's intended filter).
The claim says the Repair stage selects only crashes with
`stage == replay`, `reproducible == true` and `retry_count < 15`, and
never one whose `reproducable` is false or unknown.  The selection
lambda in the source tests only the stage and the retry count, so a
crash left at stage `replay` with `reproducable = false` — which has no
report, making the subsequent `report.decode` raise — is selected. -/
theorem c1_repair_selects_nonreproducible :
    repairSelects c1Crash = true ∧ c1Crash.reproducable = some false ∧
    reportText c1Crash = none :=
  ⟨rfl, rfl, rfl⟩

/-- Claim C2 counterexample.  A proposed patch set whose first patch is
valid and whose second patch is out of range fails on a `ModifiedLine`
and reverts the crash to stage `replay`, yet the sandbox tree is not as
it was before the application started: the first patch's file `a.c` has
already been rewritten. -/
theorem c2_earlier_patch_write_persists :
    evaluatePatchPhase c2Crash c2FS = some (CrashStage.replay, c2FSAfter) ∧
    fsRead c2FSAfter "a.c" ≠ fsRead c2FS "a.c" := by
  constructor
  · decide
  · decide

/-- Claim C2 (amended).  If applying a proposed patch set fails on a
`ModifiedLine` of some patch, the failure is detected before that
patch's file is written — the sandbox is left exactly in the state the
earlier patches of the set produced (files written by those earlier
patches do persist) — and the crash is reverted to stage `replay`. -/
theorem c2_failure_detected_before_write (c : Crash) (pre suf : List Patch) (p : Patch)
    (fs fs1 : FS) (content : String)
    (hlast : lastPatches c = some (pre ++ p :: suf))
    (hpre : patchApplication pre fs = PatchOutcome.ok fs1)
    (hread : fsRead fs1 p.file = some content)
    (hdiff : applyDiffLoop p.diff (splitlinesKeepends content) [] = none) :
    evaluatePatchPhase c fs = some (CrashStage.replay, fs1) := by
  simp only [evaluatePatchPhase, hlast]
  rw [patchApplication_append, hpre]
  simp [patchApplication, hread, hdiff]

/-- Claim C2 witness: the amended theorem applied to the concrete
two-patch scenario. -/
theorem c2_failure_detected_before_write_witness :
    evaluatePatchPhase c2Crash c2FS = some (CrashStage.replay, c2FSAfter) :=
  c2_failure_detected_before_write c2Crash [c2GoodPatch] [] c2BadPatch c2FS c2FSAfter "b1\n"
    (by decide) (by decide) (by decide) (by decide)

/-- Claim C3.  Patch application is line-exact and non-overlapping: a
single in-range `ModifiedLine` with `line_number = k` and content
`[x]` rewrites the file to its original lines with line `k` replaced by
`x ++ "\n"` (and joining the split lines restores the original text, so
this is the original file with only line `k` changed); a patch whose
diff contains two `ModifiedLine`s with the same `line_number` fails and
leaves the target file untouched. -/
theorem c3_patch_line_exact_and_nonoverlapping :
    (∀ (fs : FS) (f s x : String) (k : Nat),
      fsRead fs f = some s →
      1 ≤ k → k ≤ (splitlinesKeepends s).length →
      patchApplication [{ file := f, diff := [{ line_number := (k : Int), content := [x] }] }] fs
        = PatchOutcome.ok
            (fsWrite fs f (strConcat ((splitlinesKeepends s).set (k - 1) (x ++ "\n"))))) ∧
    (∀ s : String, strConcat (splitlinesKeepends s) = s) ∧
    (∀ (fs : FS) (f s : String) (d1 d2 d3 : List ModifiedLine) (m1 m2 : ModifiedLine),
      fsRead fs f = some s →
      m1.line_number = m2.line_number →
      patchApplication [{ file := f, diff := d1 ++ m1 :: d2 ++ m2 :: d3 }] fs
        = PatchOutcome.failed fs) := by
  refine ⟨fun fs f s x k hread hk1 hk2 => ?_, strConcat_splitlines,
    fun fs f s d1 d2 d3 m1 m2 hread hdup => ?_⟩
  · have hcond : (0 : Int) ≤ (k : Int) - 1 ∧ (k : Int) - 1 < ((splitlinesKeepends s).length : Int)
        ∧ (k : Int) - 1 ∉ ([] : List Int) := by
      refine ⟨by omega, by omega, by simp⟩
    have htn : ((k : Int) - 1).toNat = k - 1 := by omega
    simp only [patchApplication, hread, applyDiffLoop, hcond, if_pos, htn]
    simp [strJoinSep]
  · simp only [patchApplication, hread]
    rw [applyDiffLoop_dup d1 m1 d2 m2 d3 _ _ hdup]

/-- Claim C3 witness: a concrete single-line replacement succeeds and a
concrete duplicate-line patch fails leaving the file untouched. -/
theorem c3_patch_line_exact_and_nonoverlapping_witness :
    patchApplication [{ file := "f.c", diff := [{ line_number := 1, content := ["X"] }] }]
        [("f.c", "l1\nl2\n")]
      = PatchOutcome.ok
          (fsWrite [("f.c", "l1\nl2\n")] "f.c"
            (strConcat ((splitlinesKeepends "l1\nl2\n").set 0 ("X" ++ "\n")))) ∧
    patchApplication
        [{ file := "g.c",
           diff := [{ line_number := 2, content := ["A"] },
                    { line_number := 2, content := ["B"] }] }]
        [("g.c", "x\ny\nz\n")]
      = PatchOutcome.failed [("g.c", "x\ny\nz\n")] :=
  ⟨c3_patch_line_exact_and_nonoverlapping.1 [("f.c", "l1\nl2\n")] "f.c" "l1\nl2\n" "X" 1
     (by decide) (by decide) (by decide),
   c3_patch_line_exact_and_nonoverlapping.2.2 [("g.c", "x\ny\nz\n")] "g.c" "x\ny\nz\n" [] [] []
     { line_number := 2, content := ["A"] } { line_number := 2, content := ["B"] }
     (by decide) rfl⟩

/-- Claim C4 counterexample.  The claim says `retry_count` increases by
exactly 1 per completed agent round-trip including those whose agent
call fails and is caught and logged; in the code a failed agent call is
caught before `_do_operation` runs, so the crash — and in particular its
retry count — is completely unchanged. -/
theorem c4_failed_roundtrip_keeps_retry_count :
    repairRoundTrip c4Crash AgentOutcome.failure = c4Crash ∧
    c4Crash.retry_count = 0 :=
  ⟨rfl, rfl⟩

/-- Claim C4 (amended).  `retry_count` increases by exactly 1 per agent
round-trip whose action handling completes (`ProposedPatch`, `MakeNote`);
a round-trip whose agent call fails — or whose `RequestCode` handling
raises, which every `RequestCode` does — leaves the crash unchanged
except for the history append; and once `retry_count` reaches the
threshold 15 the crash is never again selected by the Repair stage. -/
theorem c4_retry_count_semantics :
    (∀ (c : Crash) (pp : ProposedPatch),
      (repairRoundTrip c (AgentOutcome.success (Action.proposedPatch pp))).retry_count
        = c.retry_count + 1) ∧
    (∀ (c : Crash) (mn : MakeNote),
      (repairRoundTrip c (AgentOutcome.success (Action.makeNote mn))).retry_count
        = c.retry_count + 1) ∧
    (∀ (c : Crash) (rc : RequestCode),
      (repairRoundTrip c (AgentOutcome.success (Action.requestCode rc))).retry_count
        = c.retry_count) ∧
    (∀ c : Crash, repairRoundTrip c AgentOutcome.failure = c) ∧
    (∀ c : Crash, TIMES_THRESHOLD ≤ c.retry_count → repairSelects c = false) := by
  refine ⟨fun c pp => rfl, fun c mn => rfl, fun c rc => rfl, fun c => rfl, fun c h => ?_⟩
  have : ¬ (c.retry_count < TIMES_THRESHOLD) := by omega
  simp [repairSelects, this]

/-- Claim C4 witness: a completed `MakeNote` round-trip increments the
retry count, and a crash at the threshold is no longer selected. -/
theorem c4_retry_count_semantics_witness :
    (repairRoundTrip { id := "w", stage := CrashStage.replay, input := [] }
        (AgentOutcome.success (Action.makeNote { content := "note" }))).retry_count = 0 + 1 ∧
    repairSelects { id := "w", stage := CrashStage.replay, input := [], retry_count := 15 } = false :=
  ⟨c4_retry_count_semantics.2.1 _ _, c4_retry_count_semantics.2.2.2.2 _ (by decide)⟩

/-- Claim C5.  Replay classification: exit code 0 yields
`reproducible = false`; a sanitizer banner in the output together with a
non-zero exit code yields `reproducible = true` with the report equal to
the captured output; any other outcome yields `reproducible = false`;
and in every case the stage is advanced to `replay`. -/
theorem c5_replay_classification (c : Crash) (ec : Int) (out : String) :
    ((replayClassify c ec out).stage = CrashStage.replay) ∧
    (ec = 0 → (replayClassify c ec out).reproducable = some false) ∧
    (ec ≠ 0 → sanitizerBanner out = true →
      (replayClassify c ec out).reproducable = some true ∧
      (replayClassify c ec out).report = some out) ∧
    (sanitizerBanner out = false →
      (replayClassify c ec out).reproducable = some false) := by
  by_cases hb : (ec != 0 && sanitizerBanner out) = true
  · obtain ⟨h1, h2⟩ := (Bool.and_eq_true _ _).mp hb
    have hec : ec ≠ 0 := by simpa using h1
    refine ⟨by simp [replayClassify, hb], fun h => absurd h hec,
      fun _ _ => ⟨by simp [replayClassify, hb], by simp [replayClassify, hb]⟩,
      fun h => by rw [h] at h2; cases h2⟩
  · have hb' : (ec != 0 && sanitizerBanner out) = false := by simpa using hb
    refine ⟨by simp [replayClassify, hb'], fun _ => by simp [replayClassify, hb'],
      fun hec hsb => ?_, fun _ => by simp [replayClassify, hb']⟩
    exfalso
    have h1 : (ec != 0) = true := by simpa using hec
    rw [h1, hsb] at hb'
    cases hb'

/-- Claim C5 witness: the classification evaluated on a banner-bearing
failing run and on a clean exit. -/
theorem c5_replay_classification_witness :
    ((replayClassify c6Crash 1 "ERROR: AddressSanitizer: heap-buffer-overflow").reproducable
        = some true) ∧
    ((replayClassify c6Crash 1 "ERROR: AddressSanitizer: heap-buffer-overflow").report
        = some "ERROR: AddressSanitizer: heap-buffer-overflow") ∧
    ((replayClassify c6Crash 0 "clean exit").reproducable = some false) ∧
    ((replayClassify c6Crash 1 "ERROR: AddressSanitizer: heap-buffer-overflow").stage
        = CrashStage.replay) :=
  ⟨((c5_replay_classification c6Crash 1 _).2.2.1 (by decide) (by decide)).1,
   ((c5_replay_classification c6Crash 1 _).2.2.1 (by decide) (by decide)).2,
   (c5_replay_classification c6Crash 0 "clean exit").2.1 rfl,
   (c5_replay_classification c6Crash 1 _).1⟩

/-- Claim C6 counterexample.  The Replay stage's command carries no
shell-level timeout wrapper at all, and a completed replay with exit
code 124 is not classified as a timeout: without a sanitizer banner it
is simply marked not reproducible (stage still advanced to `replay`).
There is no `CrashType` in the current replay path. -/
theorem c6_replay_no_timeout_wrapper :
    replayCommand "app" "crash-c6" = "./app /eval/crash-c6" ∧
    strStartsWith (replayCommand "app" "crash-c6") "timeout" = false ∧
    (replayClassify c6Crash 124 "run killed, no sanitizer output").reproducable = some false ∧
    (replayClassify c6Crash 124 "run killed, no sanitizer output").stage = CrashStage.replay := by
  refine ⟨rfl, by decide, by decide, by decide⟩

/-- Claim C6 (amended).  The current Replay stage launches the target
with no timeout wrapper, and exit code 124 is classified only by the
banner rule (reproducible iff a sanitizer banner is present); the
10-second `timeout` wrapper exists only in the Evaluate stage's re-run
command, and the exit-124-to-`CrashType.TIMEOUT` mapping exists only in
the legacy `AfixL` replay path, whose command wrapper uses a 60-second
window. -/
theorem c6_timeout_handling :
    (∀ executable id : String,
      strStartsWith (replayCommand executable id) "timeout" = false) ∧
    (∀ (c : Crash) (out : String), sanitizerBanner out = false →
      (replayClassify c 124 out).reproducable = some false) ∧
    (∀ (c : Crash) (out : String), sanitizerBanner out = true →
      (replayClassify c 124 out).reproducable = some true) ∧
    (∀ executable id : String,
      strStartsWith (evaluateCommand executable id) "timeout 10s " = true) ∧
    legacyReplayClassify 124 "" = CrashType.TIMEOUT ∧
    (∀ command : String,
      runCommandWithTimeout command REPLAY_TIMEOUT = "timeout 60s " ++ command) := by
  refine ⟨fun executable id => ?_, fun c out hb => ?_, fun c out hb => ?_,
    fun executable id => ?_, rfl, fun command => rfl⟩
  · rw [strStartsWith, replayCommand,
      strToList_append, strToList_append, strToList_append]
    rfl
  · simp [replayClassify, hb]
  · simp [replayClassify, hb]
  · rw [strStartsWith, evaluateCommand]
    rw [strToList_append, strToList_append, strToList_append]
    rw [show ("timeout 10s ./").toList = ("timeout 10s ").toList ++ ['.', '/'] from rfl]
    simp only [List.append_assoc]
    exact listIsPrefixChars_self_append _ _

/-- Claim C6 witness: the amended theorem applied to concrete commands
and outputs. -/
theorem c6_timeout_handling_witness :
    strStartsWith (replayCommand "app" "crash-w6") "timeout" = false ∧
    (replayClassify c6Crash 124 "killed").reproducable = some false ∧
    (replayClassify c6Crash 124 "ERROR: AddressSanitizer: use-after-free").reproducable
      = some true ∧
    strStartsWith (evaluateCommand "app" "crash-w6") "timeout 10s " = true ∧
    runCommandWithTimeout "./app input" REPLAY_TIMEOUT = "timeout 60s " ++ "./app input" :=
  ⟨c6_timeout_handling.1 _ _, c6_timeout_handling.2.1 _ _ (by decide),
   c6_timeout_handling.2.2.1 _ _ (by decide), c6_timeout_handling.2.2.2.1 _ _,
   c6_timeout_handling.2.2.2.2.2 _⟩

/-- Claim C7 (refuted; internal inconsistency of the code).  The claim
says `RequestCode` carries `reason`, `file` and `line` and that the
handler reads context around `line`, merges it into
`requested_content[file]`, appends a note and appends the action to
`history`.  In the source, `models.RequestCode` declares only `reason`
and `file`; the handler dereferences the nonexistent `operation.line`,
so handling any `RequestCode` raises after the history append and is
caught in `run`: `requested_content`, `note` and `retry_count` are never
updated. -/
theorem c7_requestcode_handling_always_raises :
    ∀ (c : Crash) (rc : RequestCode),
      doOperation c (Action.requestCode rc)
        = ({ c with history := c.history ++ [Action.requestCode rc] }, false) :=
  fun _ _ => rfl

/-- Claim C8.  The command handle has exactly the two states Running and
Completed and never transitions back: a fetch on a completed handle
returns it unchanged whatever the external process would report (no
inspection is consulted), the first fetch that observes the command not
running caches the exit code and the full output, and a fetch that
observes it still running caches nothing. -/
theorem c8_handle_two_state_caching :
    (∀ (h : ExecHandle) (i : Inspection), h.running = false → fetchResults h i = h) ∧
    (∀ (h : ExecHandle) (i : Inspection), h.running = true → i.Running = false →
      fetchResults h i = { running := false, exit_code := some i.ExitCode,
                           output := some i.stream }) ∧
    (∀ (h : ExecHandle) (i : Inspection), h.running = true → i.Running = true →
      fetchResults h i = h) := by
  refine ⟨fun h i hr => ?_, fun h i hr hi => ?_, fun h i hr hi => ?_⟩
  · simp [fetchResults, hr]
  · simp [fetchResults, hr, hi]
  · cases h
    simp_all [fetchResults]

/-- Claim C8 witness: a completed handle ignores a later inspection, and
a first not-running observation caches exit code and output. -/
theorem c8_handle_two_state_caching_witness :
    fetchResults { running := false, exit_code := some 0, output := some "done" }
        { Running := true, ExitCode := 7, stream := "x" }
      = { running := false, exit_code := some 0, output := some "done" } ∧
    fetchResults { running := true, exit_code := none, output := none }
        { Running := false, ExitCode := 124, stream := "out" }
      = { running := false, exit_code := some 124, output := some "out" } :=
  ⟨c8_handle_two_state_caching.1 _ _ rfl, c8_handle_two_state_caching.2.1 _ _ rfl rfl⟩

/-- Claim C9 counterexample.  A first `close` on a live container stops
and removes it but leaves the instance's container reference set, so a
second `close` on the same instance finds the daemon without that
container and raises instead of logging and returning. -/
theorem c9_second_close_raises :
    instanceClose c9Instance { containers := ["cont-1"] }
      = CloseResult.returned { containers := [] } c9Instance ∧
    instanceClose c9Instance { containers := [] }
      = CloseResult.raised { containers := [] } := by
  refine ⟨by decide, by decide⟩

/-- Claim C9 (amended).  `close()` logs and returns without raising when
the Docker client is unavailable or when no container reference is set;
on a live container it stops and removes it, but it does not clear the
container reference, so a repeated `close` on an instance whose
container is gone from the daemon raises a not-found error rather than
logging and returning. -/
theorem c9_close_guard_behaviour :
    (∀ (inst : InstanceState) (w : DockerWorld), inst.clientConnected = false →
      instanceClose inst w = CloseResult.returned w inst) ∧
    (∀ (inst : InstanceState) (w : DockerWorld), inst.container = none →
      instanceClose inst w = CloseResult.returned w inst) ∧
    (∀ (inst : InstanceState) (w : DockerWorld) (cid : String),
      inst.clientConnected = true → inst.container = some cid → cid ∈ w.containers →
      instanceClose inst w
        = CloseResult.returned { containers := w.containers.erase cid } inst) ∧
    (∀ (inst : InstanceState) (w : DockerWorld) (cid : String),
      inst.clientConnected = true → inst.container = some cid → cid ∉ w.containers →
      instanceClose inst w = CloseResult.raised w) := by
  refine ⟨fun inst w hc => ?_, fun inst w hc => ?_,
    fun inst w cid hc hx hm => ?_, fun inst w cid hc hx hm => ?_⟩
  · simp [instanceClose, hc]
  · cases hcl : inst.clientConnected <;> simp [instanceClose, hc, hcl]
  · simp [instanceClose, hc, hx, hm]
  · simp [instanceClose, hc, hx, hm]

/-- Claim C9 witness: the guard branches evaluated on concrete instance
and daemon states. -/
theorem c9_close_guard_behaviour_witness :
    instanceClose { clientConnected := false, container := some "c" } { containers := ["c"] }
      = CloseResult.returned { containers := ["c"] }
          { clientConnected := false, container := some "c" } ∧
    instanceClose { clientConnected := true, container := some "gone" } { containers := ["other"] }
      = CloseResult.raised { containers := ["other"] } :=
  ⟨c9_close_guard_behaviour.1 _ _ rfl,
   c9_close_guard_behaviour.2.2.2 _ _ "gone" rfl rfl (by decide)⟩

/-- Claim C10.  The Fuzz stage's extraction creates a crash input only
for archive entries that are extractable regular files whose base
filename starts with `id:` (dropping every other entry changes
nothing); every created crash records exactly one new artifact name in
the seen set, which stays duplicate-free, so each distinct artifact
filename produces at most one crash per run; and the created record is
`Crash(stage="fuzz", input=bytes)` with the model defaults. -/
theorem c10_fuzz_crash_extraction :
    (∀ (ms : List TarMember) (seen : List String),
      fuzzExtract ms seen = fuzzExtract (ms.filter fuzzEligible) seen) ∧
    (∀ (ms : List TarMember) (seen : List String),
      (fuzzExtract ms seen).2.length = seen.length + (fuzzExtract ms seen).1.length) ∧
    (∀ (ms : List TarMember) (seen : List String),
      seen.Nodup → (fuzzExtract ms seen).2.Nodup) ∧
    (∀ (id : String) (input : List Nat),
      (newFuzzCrash id input).stage = CrashStage.fuzz ∧
      (newFuzzCrash id input).input = input ∧
      (newFuzzCrash id input).reproducable = none ∧
      (newFuzzCrash id input).retry_count = 0 ∧
      (newFuzzCrash id input).history = []) :=
  ⟨fuzzExtract_filter, fuzzExtract_length, fuzzExtract_nodup,
   fun _ _ => ⟨rfl, rfl, rfl, rfl, rfl⟩⟩

/-- Claim C10 witness: the extraction applied to a concrete archive with
a directory, a non-`id:` file and a duplicated artifact name keeps the
seen set duplicate-free. -/
theorem c10_fuzz_crash_extraction_witness :
    ((fuzzExtract
        [{ name := "crashes/id:000000", isfile := true, data := some [1, 2] },
         { name := "crashes/README.txt", isfile := true, data := some [3] },
         { name := "crashes", isfile := false, data := none },
         { name := "crashes/id:000000", isfile := true, data := some [1, 2] }] []).2).Nodup :=
  c10_fuzz_crash_extraction.2.2.1 _ [] (by decide)

end AFixL
